import Mathlib

/-!
# The libev I/O plugin (`lcb-plugin/plugin-libev.c`)

A shallow embedding of the plugin's functions.  Every function of the C file
becomes a pure function: the objects it mutates through pointers are passed
in and returned, the calls it makes on the reactor (libev) and on the
operating system are returned as a list, in program order.

The reactor and the operating system are outside the file.  A reactor call
is recorded with the loop and the watcher as it is handed over; the outcome
of a system call (value returned, `errno` afterwards) is given by an
arbitrary function of the call.

What libev does to a watcher of its own is modelled for the readiness
watcher, after libev's `ev.h` and `ev.c`: `ev_io_set` stores the mask
together with the flag `EV__IOFDSET`, `ev_io_start` marks the watcher active
and clears that flag, `ev_io_stop` clears `pending` and `active`.  The timer
entry points keep their bookkeeping (`active` is an index into the loop's
timer heap) in members the plugin never reads; these writes depend on the
state of the loop and are not modelled.
-/

namespace LibevPlugin

/-! ## Data model -/

/-- Pointers (`void *`, function pointers, `struct ev_loop *`) are opaque
addresses compared by identity; `0` is `NULL`. -/
abbrev Ptr := Nat

/-- Values that the C file takes from headers outside the source tree
(`libcouchbase/types.h`, `ev.h`, `fcntl.h`) and the two facts of the target's
data layout the code depends on.  They are parameters of the embedding.

`EV_TIMER` stands for the constant of the timer test in
`lcb_io_update_timer` (`EV_TIMER` with `HAVE_LIBEV4`, `EV_TIMEOUT` without).
`EV__IOFDSET` is the flag that the macro `ev_io_set` of `ev.h` stores next to
the mask (`EV_IOFDSET` in libev 3).

`struct libev_event` keeps `struct ev_io` and `struct ev_timer` in one
`union`: the members `fd` and `events` of the first share their bytes with
the member `repeat` of the second.  `io_fd_of_repeat r` and
`io_events_of_repeat r` are what `ev.io.fd` and `ev.io.events` read after
the number `r` has been stored in `ev.timer.repeat`. -/
structure Platform where
  LCB_READ_EVENT : Nat
  LCB_WRITE_EVENT : Nat
  EV_NONE : Nat
  EV_READ : Nat
  EV_WRITE : Nat
  EV_TIMER : Nat
  EV__IOFDSET : Nat
  INVALID_SOCKET : Int
  O_NONBLOCK : Nat
  io_fd_of_repeat : Nat → Int
  io_events_of_repeat : Nat → Nat

/-- The callback slot of a reactor watcher: empty, or the plugin's one thunk. -/
inductive ev_cb where
  | null
  | handler_thunk
deriving DecidableEq, Repr

/-- The type-specific members of `union { struct ev_io io; struct ev_timer
timer; } ev`, as last stored: through the `io` view (`fd`, `events`) or
through the `timer` view (`repeat`, a `double` holding a number of seconds;
the plugin only ever stores a 32-bit unsigned integer there, which a
`double` represents exactly, so the stored number is kept as a `Nat`). -/
inductive ev_members where
  | io (fd : Int) (events : Nat)
  | timer (repeat_ : Nat)
deriving DecidableEq, Repr

/-- The C `struct libev_event`: the reactor watcher (generic members `active`,
`pending`, `priority`, `cb`, then the union's type-specific members), the
user data and the installed handler. -/
structure libev_event where
  active : Int
  pending : Int
  priority : Int
  cb : ev_cb
  ev : ev_members
  data : Ptr
  handler : Ptr
deriving DecidableEq, Repr

/-- The C `struct libev_cookie`. -/
structure libev_cookie where
  loop : Ptr
  allocated : Int
deriving DecidableEq, Repr

/-- The members of `struct lcb_io_opt_st` the plugin reads or writes after
construction: the captured error and the cookie.  (The function table is
filled once by `lcb_create_libev_io_opts` with the functions below.) -/
structure lcb_io_opt_st where
  error : Int
  cookie : libev_cookie
deriving DecidableEq, Repr

/-- The read `evt->ev.io.events`. -/
def io_events (P : Platform) : ev_members → Nat
  | .io _ events => events
  | .timer r => P.io_events_of_repeat r

/-- The read `evt->ev.io.fd`. -/
def io_fd (P : Platform) : ev_members → Int
  | .io fd _ => fd
  | .timer r => P.io_fd_of_repeat r

/-- A call made on the reactor, with the loop it is made on and the state of
the watcher at the moment of the call. -/
inductive ReactorCall where
  | ev_io_start (loop : Ptr) (w : libev_event)
  | ev_io_stop (loop : Ptr) (w : libev_event)
  | ev_timer_again (loop : Ptr) (w : libev_event)
  | ev_timer_stop (loop : Ptr) (w : libev_event)
  | ev_loop_new
  | ev_loop_destroy (loop : Ptr)
deriving DecidableEq, Repr

/-- An invocation of a generic handler `handler(sock, which, cb_data)`. -/
structure HandlerCall where
  handler : Ptr
  sock : Int
  which : Nat
  cb_data : Ptr
deriving DecidableEq, Repr

/-- Memory returned by `calloc(1, sizeof(struct libev_event))`: all zero. -/
def lcb_io_create_event : libev_event :=
  { active := 0, pending := 0, priority := 0, cb := .null, ev := .io 0 0,
    data := 0, handler := 0 }

/-! ## Reactor macros of `ev.h` -/

/-- The macro `ev_init (w, cb)` of libev: it initialises the generic part of
the watcher only (`active = pending = 0`, priority `0`, callback `cb`) and
leaves the type-specific members alone. -/
def ev_init (w : libev_event) (cb : ev_cb) : libev_event :=
  { w with active := 0, pending := 0, priority := 0, cb := cb }

/-- The macro `ev_io_set (w, fd, events)` of libev:
`(w)->fd = (fd); (w)->events = (events) | EV__IOFDSET`. -/
def ev_io_set (P : Platform) (w : libev_event) (fd : Int) (events : Nat) : libev_event :=
  { w with ev := .io fd (events ||| P.EV__IOFDSET) }

/-- The word `x` with the bits of `mask` cleared, `x & ~mask`. -/
def clear_bits (x mask : Nat) : Nat := x ^^^ (x &&& mask)

/-- The watcher as libev's `ev_io_stop` leaves it: a pending event is
dropped (`pending = 0`) and the watcher is inactive. -/
def ev_io_stop (w : libev_event) : libev_event :=
  { w with pending := 0, active := 0 }

/-- The watcher as libev's `ev_io_start` leaves it: nothing happens to an
active watcher; an inactive one becomes active (`active = 1`) and
`w->events &= ~EV__IOFDSET` removes the flag `ev_io_set` stored.  The
priority is kept: the plugin starts a watcher right after `ev_init`, with
priority 0, which libev's clamping to its priority range leaves alone.  The
assertions of `ev_io_start` on the descriptor and the mask are not
modelled. -/
def ev_io_start (P : Platform) (w : libev_event) : libev_event :=
  if w.active ≠ 0 then w
  else
    { w with active := 1,
             ev := .io (io_fd P w.ev) (clear_bits (io_events P w.ev) P.EV__IOFDSET) }

/-! ## Event multiplexing -/

/-- Conversion of an `int` to the `short` parameter `which` (bit pattern). -/
def to_short (x : Nat) : Nat := x % 2 ^ 16

/-- The native mask computed at the head of `lcb_io_update_event`. -/
def native_events (P : Platform) (flags : Nat) : Nat :=
  let events := P.EV_NONE
  let events := if flags &&& P.LCB_READ_EVENT ≠ 0 then events ||| P.EV_READ else events
  let events := if flags &&& P.LCB_WRITE_EVENT ≠ 0 then events ||| P.EV_WRITE else events
  events

/-- The function `handler_thunk (loop, io, events)`: the handler invocation
it makes. -/
def handler_thunk (P : Platform) (evt : libev_event) (events : Nat) : HandlerCall :=
  let which := 0
  let which := if events &&& P.EV_READ ≠ 0 then which ||| P.LCB_READ_EVENT else which
  let which := if events &&& P.EV_WRITE ≠ 0 then which ||| P.LCB_WRITE_EVENT else which
  { handler := evt.handler, sock := io_fd P evt.ev, which := to_short which,
    cb_data := evt.data }

/-- The function `lcb_io_update_event`: return value, watcher afterwards,
reactor calls. -/
def lcb_io_update_event (P : Platform) (iops : lcb_io_opt_st) (sock : Int)
    (evt : libev_event) (flags : Nat) (cb_data : Ptr) (handler : Ptr) :
    Int × libev_event × List ReactorCall :=
  let io_cookie := iops.cookie
  let events := native_events P flags
  if events = io_events P evt.ev ∧ handler = evt.handler then
    (0, evt, [])
  else
    let c1 := ReactorCall.ev_io_stop io_cookie.loop evt
    let evt := ev_io_stop evt
    let evt := { evt with data := cb_data }
    let evt := { evt with handler := handler }
    let evt := ev_init evt .handler_thunk
    let evt := ev_io_set P evt sock events
    let c2 := ReactorCall.ev_io_stop io_cookie.loop evt
    let evt := ev_io_stop evt
    let c3 := ReactorCall.ev_io_start io_cookie.loop evt
    let evt := ev_io_start P evt
    (0, evt, [c1, c2, c3])

/-- The function `lcb_io_delete_event`: watcher afterwards and the reactor
call it makes. -/
def lcb_io_delete_event (iops : lcb_io_opt_st) (evt : libev_event) :
    libev_event × List ReactorCall :=
  let io_cookie := iops.cookie
  (ev_io_stop evt, [ReactorCall.ev_io_stop io_cookie.loop evt])

/-! ## Timers -/

/-- The function `lcb_io_update_timer`: return value, watcher afterwards,
reactor calls.
`usec` is an `lcb_uint32_t`; the assignment `evt->ev.timer.repeat = usec`
converts it to `double` without loss. -/
def lcb_io_update_timer (P : Platform) (iops : lcb_io_opt_st) (evt : libev_event)
    (usec : Nat) (cb_data : Ptr) (handler : Ptr) :
    Int × libev_event × List ReactorCall :=
  let io_cookie := iops.cookie
  if evt.handler = handler ∧ io_events P evt.ev = P.EV_TIMER then
    (0, evt, [])
  else
    let evt := { evt with data := cb_data }
    let evt := { evt with handler := handler }
    let evt := ev_init evt .handler_thunk
    let evt := { evt with ev := .timer usec }
    (0, evt, [ReactorCall.ev_timer_again io_cookie.loop evt])

/-- The function `lcb_io_delete_timer`: the reactor call it makes. -/
def lcb_io_delete_timer (iops : lcb_io_opt_st) (evt : libev_event) : List ReactorCall :=
  let io_cookie := iops.cookie
  [ReactorCall.ev_timer_stop io_cookie.loop evt]

/-! ## Loop ownership -/

/-- The function `lcb_destroy_io_opts`: the reactor calls it makes (the two
`free` calls are not recorded). -/
def lcb_destroy_io_opts (iops : lcb_io_opt_st) : List ReactorCall :=
  let io_cookie := iops.cookie
  if io_cookie.allocated ≠ 0 then [ReactorCall.ev_loop_destroy io_cookie.loop] else []

/-- The function `lcb_create_libev_io_opts (loop)`.  `ret_ok` and `cookie_ok`
tell whether the two `calloc` calls succeed, `new_loop` is what `ev_loop_new`
returns when it is called (`0` for `NULL`).  The result is the adapter
(`none` for `NULL`) and the reactor calls made. -/
def lcb_create_libev_io_opts (ret_ok cookie_ok : Bool) (new_loop : Ptr) (loop : Ptr) :
    Option lcb_io_opt_st × List ReactorCall :=
  if ret_ok = false ∨ cookie_ok = false then
    (none, [])
  else
    let cookie : libev_cookie := { loop := 0, allocated := 0 }
    if loop = 0 then
      let cookie := { cookie with loop := new_loop }
      if cookie.loop = 0 then
        (none, [ReactorCall.ev_loop_new])
      else
        let cookie := { cookie with allocated := 1 }
        (some { error := 0, cookie := cookie }, [ReactorCall.ev_loop_new])
    else
      let cookie := { cookie with loop := loop }
      let cookie := { cookie with allocated := 0 }
      (some { error := 0, cookie := cookie }, [])

/-! ## Socket shim -/

/-- The C `struct lcb_iovec_st` and `struct iovec`: base address and length. -/
structure iovec where
  iov_base : Ptr
  iov_len : Nat
deriving DecidableEq, Repr

/-- The members of `struct msghdr` the plugin sets: `msg_iov` (the
two-element array `vec`) and `msg_iovlen`; the others are zeroed. -/
structure msghdr where
  msg_iov : List iovec
  msg_iovlen : Nat
deriving DecidableEq, Repr

/-- The buffers of a message: the first `msg_iovlen` entries of `msg_iov`. -/
def msghdr.buffers (msg : msghdr) : List iovec := msg.msg_iov.take msg.msg_iovlen

/-- A system call with its arguments. -/
inductive Syscall where
  | recv (sock : Int) (buffer : Ptr) (len : Nat) (flags : Int)
  | send (sock : Int) (msg : Ptr) (len : Nat) (flags : Int)
  | recvmsg (sock : Int) (msg : msghdr) (flags : Int)
  | sendmsg (sock : Int) (msg : msghdr) (flags : Int)
  | connect (sock : Int) (name : Ptr) (namelen : Nat)
  | socket (domain : Int) (type : Int) (protocol : Int)
  | fcntl_getfl (sock : Int)
  | fcntl_setfl (sock : Int) (flags : Nat)
  | close (sock : Int)
deriving DecidableEq, Repr

/-- Outcome of a system call: the value returned and `errno` afterwards. -/
structure SysResult where
  ret : Int
  errno : Int
deriving DecidableEq, Repr

/-- The operating system: the outcome of every system call. -/
abbrev OS := Syscall → SysResult

/-- The function `lcb_io_recv`. -/
def lcb_io_recv (os : OS) (iops : lcb_io_opt_st) (sock : Int) (buffer : Ptr)
    (len : Nat) (flags : Int) : Int × lcb_io_opt_st × List Syscall :=
  let c := Syscall.recv sock buffer len flags
  let ret := (os c).ret
  let iops := if ret < 0 then { iops with error := (os c).errno } else iops
  (ret, iops, [c])

/-- The function `lcb_io_recvv`; `none` when `err (1, ...)` terminates the process. -/
def lcb_io_recvv (os : OS) (iops : lcb_io_opt_st) (sock : Int) (iov : Nat → iovec)
    (niov : Nat) : Option (Int × lcb_io_opt_st × List Syscall) :=
  if niov ≠ 2 then
    none
  else
    let msg_iovlen := if (iov 1).iov_len ≠ 0 then 2 else 1
    let vec0 : iovec := { iov_base := (iov 0).iov_base, iov_len := (iov 0).iov_len }
    let vec1 : iovec := { iov_base := (iov 1).iov_base, iov_len := (iov 1).iov_len }
    let msg : msghdr := { msg_iov := [vec0, vec1], msg_iovlen := msg_iovlen }
    let c := Syscall.recvmsg sock msg 0
    let ret := (os c).ret
    let iops := if ret < 0 then { iops with error := (os c).errno } else iops
    some (ret, iops, [c])

/-- The function `lcb_io_send`. -/
def lcb_io_send (os : OS) (iops : lcb_io_opt_st) (sock : Int) (msg : Ptr)
    (len : Nat) (flags : Int) : Int × lcb_io_opt_st × List Syscall :=
  let c := Syscall.send sock msg len flags
  let ret := (os c).ret
  let iops := if ret < 0 then { iops with error := (os c).errno } else iops
  (ret, iops, [c])

/-- The function `lcb_io_sendv`; `none` when `err (1, ...)` terminates the process. -/
def lcb_io_sendv (os : OS) (iops : lcb_io_opt_st) (sock : Int) (iov : Nat → iovec)
    (niov : Nat) : Option (Int × lcb_io_opt_st × List Syscall) :=
  if niov ≠ 2 then
    none
  else
    let msg_iovlen := if (iov 1).iov_len ≠ 0 then 2 else 1
    let vec0 : iovec := { iov_base := (iov 0).iov_base, iov_len := (iov 0).iov_len }
    let vec1 : iovec := { iov_base := (iov 1).iov_base, iov_len := (iov 1).iov_len }
    let msg : msghdr := { msg_iov := [vec0, vec1], msg_iovlen := msg_iovlen }
    let c := Syscall.sendmsg sock msg 0
    let ret := (os c).ret
    let iops := if ret < 0 then { iops with error := (os c).errno } else iops
    some (ret, iops, [c])

/-- The function `make_socket_nonblocking` (the branch without `_WIN32`): return value,
`errno` after the last system call, system calls made. -/
def make_socket_nonblocking (P : Platform) (os : OS) (sock : Int) :
    Int × Int × List Syscall :=
  let c1 := Syscall.fcntl_getfl sock
  let flags := (os c1).ret
  if flags < 0 then
    (-1, (os c1).errno, [c1])
  else
    let c2 := Syscall.fcntl_setfl sock (flags.toNat ||| P.O_NONBLOCK)
    if (os c2).ret = -1 then
      (-1, (os c2).errno, [c1, c2])
    else
      (0, (os c2).errno, [c1, c2])

/-- The function `close_socket` (the branch without `_WIN32`). -/
def close_socket (os : OS) (sock : Int) : Int × List Syscall :=
  let c := Syscall.close sock
  ((os c).ret, [c])

/-- The function `lcb_io_close`. -/
def lcb_io_close (os : OS) (iops : lcb_io_opt_st) (sock : Int) :
    lcb_io_opt_st × List Syscall :=
  (iops, (close_socket os sock).2)

/-- The function `lcb_io_socket`; `iops->close` is `lcb_io_close`, as installed by
`lcb_create_libev_io_opts`. -/
def lcb_io_socket (P : Platform) (os : OS) (iops : lcb_io_opt_st)
    (domain : Int) (type : Int) (protocol : Int) : Int × lcb_io_opt_st × List Syscall :=
  let c := Syscall.socket domain type protocol
  let sock := (os c).ret
  if sock = P.INVALID_SOCKET then
    let iops := { iops with error := (os c).errno }
    (sock, iops, [c])
  else
    let r := make_socket_nonblocking P os sock
    if r.1 ≠ 0 then
      let error := r.2.1
      let cl := lcb_io_close os iops sock
      let iops := { cl.1 with error := error }
      let sock := P.INVALID_SOCKET
      (sock, iops, c :: r.2.2 ++ cl.2)
    else
      (sock, iops, c :: r.2.2)

/-- The function `lcb_io_connect`. -/
def lcb_io_connect (os : OS) (iops : lcb_io_opt_st) (sock : Int) (name : Ptr)
    (namelen : Nat) : Int × lcb_io_opt_st × List Syscall :=
  let c := Syscall.connect sock name namelen
  let ret := (os c).ret
  let iops := if ret < 0 then { iops with error := (os c).errno } else iops
  (ret, iops, [c])

/-! ## A concrete platform -/

/-- Number of binary digits of `n` (at most `fuel`). -/
def bit_length : Nat → Nat → Nat
  | 0, _ => 0
  | fuel + 1, n => if n = 0 then 0 else 1 + bit_length fuel (n / 2)

/-- Representation as an IEEE 754 binary64 of a natural number below `2 ^ 53`. -/
def binary64 (n : Nat) : Nat :=
  if n = 0 then 0
  else
    let e := bit_length 64 n - 1
    (1023 + e) * 2 ^ 52 + (n - 2 ^ e) * 2 ^ (52 - e)

/-- A 32-bit word read as a signed `int`. -/
def to_int32 (x : Nat) : Int :=
  if x % 2 ^ 32 < 2 ^ 31 then (x % 2 ^ 32 : Nat) else (x % 2 ^ 32 : Nat) - 2 ^ 32

/-- GNU/Linux on x86-64 with libev 4 and libcouchbase 2: `LCB_READ_EVENT`
is `0x02`, `LCB_WRITE_EVENT` is `0x04`; `EV_NONE`, `EV_READ`, `EV_WRITE` and
`EV_TIMER` are `0x00`, `0x01`, `0x02` and `0x100`; `EV__IOFDSET` is `0x80`;
`INVALID_SOCKET` is `-1`;
`O_NONBLOCK` is `04000`.  In `struct ev_io` the members `fd` and `events`
lie at offsets 40 and 44, in `struct ev_timer` the `double` member `repeat`
lies at offset 40, little-endian: `fd` is its low word, `events` its high
word. -/
def linux_libev4 : Platform :=
  { LCB_READ_EVENT := 2, LCB_WRITE_EVENT := 4,
    EV_NONE := 0, EV_READ := 1, EV_WRITE := 2, EV_TIMER := 256, EV__IOFDSET := 128,
    INVALID_SOCKET := -1, O_NONBLOCK := 2048,
    io_fd_of_repeat := fun r => to_int32 (binary64 r % 2 ^ 32),
    io_events_of_repeat := fun r => binary64 r / 2 ^ 32 }

/-- What the embedding needs of the header constants: the two generic flags
are distinct non-empty bit sets that fit in a `short`, the two native flags
are distinct non-empty bit sets, `EV_NONE` is the empty mask, and the flag
`EV__IOFDSET` shares no bit with the native read and write flags. -/
def Platform.wf (P : Platform) : Prop :=
  P.LCB_READ_EVENT ≠ 0 ∧ P.LCB_WRITE_EVENT ≠ 0 ∧
  P.LCB_READ_EVENT &&& P.LCB_WRITE_EVENT = 0 ∧
  P.LCB_READ_EVENT < 2 ^ 15 ∧ P.LCB_WRITE_EVENT < 2 ^ 15 ∧
  P.EV_READ ≠ 0 ∧ P.EV_WRITE ≠ 0 ∧ P.EV_READ &&& P.EV_WRITE = 0 ∧
  P.EV_NONE = 0 ∧
  P.EV_READ &&& P.EV__IOFDSET = 0 ∧ P.EV_WRITE &&& P.EV__IOFDSET = 0

instance (P : Platform) : Decidable P.wf := by
  unfold Platform.wf; infer_instance

/-! ## Sequences of calls and views of the call list -/

/-- Successive `lcb_io_update_event` calls on one watcher with one mask and
one callback; each call has its own socket and user data.  The result is the
watcher after the last call and, per call, the value returned and the
reactor calls made. -/
def update_event_seq (P : Platform) (iops : lcb_io_opt_st) (flags : Nat) (handler : Ptr) :
    libev_event → List (Int × Ptr) → libev_event × List (Int × List ReactorCall)
  | evt, [] => (evt, [])
  | evt, a :: rest =>
    let r := lcb_io_update_event P iops a.1 evt flags a.2 handler
    let s := update_event_seq P iops flags handler r.2.1 rest
    (s.1, (r.1, r.2.2) :: s.2)

/-- The reactor entry points. -/
inductive ReactorOp where
  | io_start
  | io_stop
  | timer_again
  | timer_stop
  | loop_new
  | loop_destroy
deriving DecidableEq, Repr

/-- The entry point of a reactor call. -/
def ReactorCall.op : ReactorCall → ReactorOp
  | .ev_io_start _ _ => .io_start
  | .ev_io_stop _ _ => .io_stop
  | .ev_timer_again _ _ => .timer_again
  | .ev_timer_stop _ _ => .timer_stop
  | .ev_loop_new => .loop_new
  | .ev_loop_destroy _ => .loop_destroy

/-- An operating system: `socket` returns descriptor
5, `F_GETFL` returns flags 2, `F_SETFL` fails with error code 9, and `close`
succeeds but leaves error code 4 in `errno`. -/
def os_setfl_fails : OS
  | .socket _ _ _ => ⟨5, 0⟩
  | .fcntl_getfl _ => ⟨2, 0⟩
  | .fcntl_setfl _ _ => ⟨-1, 9⟩
  | .close _ => ⟨0, 4⟩
  | _ => ⟨0, 0⟩

/-- The stored member `ev.timer.repeat`, a number of seconds, denotes a
duration of `usec` microseconds. -/
def denotes_usec : ev_members → Nat → Prop
  | .timer r, usec => r * 1000000 = usec
  | .io _ _, _ => False

instance (m : ev_members) (usec : Nat) : Decidable (denotes_usec m usec) := by
  cases m <;> unfold denotes_usec <;> infer_instance

/-! ## Bit sets -/

theorem and_eq_zero_testBit (a F : Nat) (h : a &&& F = 0) (i : Nat) :
    (a.testBit i && F.testBit i) = false := by
  rw [← Nat.testBit_and, h]
  simp

/-- Clearing a flag that was added to a mask it shares no bit with gives the
mask back. -/
theorem clear_bits_or (e F : Nat) (h : e &&& F = 0) : clear_bits (e ||| F) F = e := by
  apply Nat.eq_of_testBit_eq
  intro i
  have hi := and_eq_zero_testBit e F h i
  simp only [clear_bits, Nat.testBit_xor, Nat.testBit_and, Nat.testBit_or]
  cases he : e.testBit i <;> cases hF : F.testBit i <;> simp_all

theorem or_and_eq_zero (a b F : Nat) (ha : a &&& F = 0) (hb : b &&& F = 0) :
    (a ||| b) &&& F = 0 := by
  apply Nat.eq_of_testBit_eq
  intro i
  have h1 := and_eq_zero_testBit a F ha i
  have h2 := and_eq_zero_testBit b F hb i
  simp only [Nat.testBit_and, Nat.testBit_or, Nat.zero_testBit]
  cases he : a.testBit i <;> cases hb : b.testBit i <;> cases hF : F.testBit i <;> simp_all

theorem or_and_self_left (a b : Nat) : (a ||| b) &&& a = a := by
  apply Nat.eq_of_testBit_eq
  intro i
  simp only [Nat.testBit_and, Nat.testBit_or]
  cases a.testBit i <;> simp

theorem or_and_self_right (a b : Nat) : (a ||| b) &&& b = b := by
  rw [Nat.or_comm]
  exact or_and_self_left b a

theorem and_or_and_left (e a b : Nat) : (e &&& (a ||| b)) &&& a = e &&& a := by
  rw [Nat.and_assoc, or_and_self_left]

theorem and_or_and_right (e a b : Nat) : (e &&& (a ||| b)) &&& b = e &&& b := by
  rw [Nat.and_assoc, or_and_self_right]

/-! ## Properties of `lcb_io_update_event` -/

/-- The translated mask never carries the flag `EV__IOFDSET`. -/
theorem native_events_and_fdset (P : Platform) (hP : P.wf) (flags : Nat) :
    native_events P flags &&& P.EV__IOFDSET = 0 := by
  obtain ⟨-, -, -, -, -, -, -, -, hn, hrf, hwf⟩ := hP
  have h0 : (0 : Nat) &&& P.EV__IOFDSET = 0 := Nat.zero_and _
  unfold native_events
  rw [hn]
  by_cases h1 : flags &&& P.LCB_READ_EVENT = 0 <;>
    by_cases h2 : flags &&& P.LCB_WRITE_EVENT = 0 <;>
    simp only [h1, h2, ne_eq, not_true_eq_false, not_false_eq_true, if_true, if_false,
      Nat.zero_or]
  · exact h0
  · exact hwf
  · exact hrf
  · exact or_and_eq_zero _ _ _ hrf hwf

/-- The no-op branch of `lcb_io_update_event`. -/
theorem update_event_same (P : Platform) (iops : lcb_io_opt_st) (sock : Int)
    (evt : libev_event) (flags : Nat) (cb_data handler : Ptr)
    (he : native_events P flags = io_events P evt.ev) (hh : handler = evt.handler) :
    lcb_io_update_event P iops sock evt flags cb_data handler = (0, evt, []) := by
  simp [lcb_io_update_event, he, hh]

/-- The re-registration branch of `lcb_io_update_event`, for any header
constants: the watcher handed to the second `ev_io_stop` and to
`ev_io_start` carries the mask with `EV__IOFDSET`, the watcher left behind
is active and has that flag cleared. -/
theorem update_event_changed_raw (P : Platform) (iops : lcb_io_opt_st) (sock : Int)
    (evt : libev_event) (flags : Nat) (cb_data handler : Ptr)
    (h : ¬ (native_events P flags = io_events P evt.ev ∧ handler = evt.handler)) :
    lcb_io_update_event P iops sock evt flags cb_data handler =
      (0,
       { active := 1, pending := 0, priority := 0, cb := .handler_thunk,
         ev := .io sock (clear_bits (native_events P flags ||| P.EV__IOFDSET) P.EV__IOFDSET),
         data := cb_data, handler := handler },
       [ReactorCall.ev_io_stop iops.cookie.loop evt,
        ReactorCall.ev_io_stop iops.cookie.loop
          { active := 0, pending := 0, priority := 0, cb := .handler_thunk,
            ev := .io sock (native_events P flags ||| P.EV__IOFDSET),
            data := cb_data, handler := handler },
        ReactorCall.ev_io_start iops.cookie.loop
          { active := 0, pending := 0, priority := 0, cb := .handler_thunk,
            ev := .io sock (native_events P flags ||| P.EV__IOFDSET),
            data := cb_data, handler := handler }]) := by
  unfold lcb_io_update_event
  simp only [h, if_false]
  simp [ev_init, ev_io_set, ev_io_stop, ev_io_start, io_fd, io_events]

/-- The re-registration branch of `lcb_io_update_event`: the watcher left
behind carries the translated mask itself. -/
theorem update_event_changed (P : Platform) (hP : P.wf) (iops : lcb_io_opt_st) (sock : Int)
    (evt : libev_event) (flags : Nat) (cb_data handler : Ptr)
    (h : ¬ (native_events P flags = io_events P evt.ev ∧ handler = evt.handler)) :
    lcb_io_update_event P iops sock evt flags cb_data handler =
      (0,
       { active := 1, pending := 0, priority := 0, cb := .handler_thunk,
         ev := .io sock (native_events P flags), data := cb_data, handler := handler },
       [ReactorCall.ev_io_stop iops.cookie.loop evt,
        ReactorCall.ev_io_stop iops.cookie.loop
          { active := 0, pending := 0, priority := 0, cb := .handler_thunk,
            ev := .io sock (native_events P flags ||| P.EV__IOFDSET),
            data := cb_data, handler := handler },
        ReactorCall.ev_io_start iops.cookie.loop
          { active := 0, pending := 0, priority := 0, cb := .handler_thunk,
            ev := .io sock (native_events P flags ||| P.EV__IOFDSET),
            data := cb_data, handler := handler }]) := by
  rw [update_event_changed_raw P iops sock evt flags cb_data handler h,
    clear_bits_or _ _ (native_events_and_fdset P hP flags)]

/-- After any `lcb_io_update_event` call the watcher carries the requested
native mask, without `EV__IOFDSET`, and the requested callback. -/
theorem update_event_installed (P : Platform) (hP : P.wf) (iops : lcb_io_opt_st) (sock : Int)
    (evt : libev_event) (flags : Nat) (cb_data handler : Ptr) :
    io_events P (lcb_io_update_event P iops sock evt flags cb_data handler).2.1.ev
        = native_events P flags ∧
      (lcb_io_update_event P iops sock evt flags cb_data handler).2.1.handler = handler := by
  by_cases h : native_events P flags = io_events P evt.ev ∧ handler = evt.handler
  · rw [update_event_same P iops sock evt flags cb_data handler h.1 h.2]
    exact ⟨h.1.symm, h.2.symm⟩
  · rw [update_event_changed P hP iops sock evt flags cb_data handler h]
    exact ⟨rfl, rfl⟩

/-- A run of calls on a watcher that already carries the mask and the
callback changes nothing and reaches the reactor in no call. -/
theorem update_event_seq_same (P : Platform) (iops : lcb_io_opt_st) (flags : Nat)
    (handler : Ptr) (evt : libev_event)
    (he : native_events P flags = io_events P evt.ev) (hh : handler = evt.handler)
    (rest : List (Int × Ptr)) :
    update_event_seq P iops flags handler evt rest
      = (evt, rest.map (fun _ => ((0 : Int), ([] : List ReactorCall)))) := by
  induction rest with
  | nil => rfl
  | cons a rest ih =>
    simp only [update_event_seq, List.map_cons]
    rw [update_event_same P iops a.1 evt flags a.2 handler he hh]
    simp only [ih]

/-- C1. Idempotence of update-event on an unchanged (mask, callback) pair,
for header constants as `Platform.wf` describes them: whatever the watcher,
once one `lcb_io_update_event` call has been made with a mask and a
callback (`ev_io_set` having stored the mask with `EV__IOFDSET` and
`ev_io_start` having cleared that flag), every further call with that mask
and that callback (with any socket and any user data) returns 0, makes no
reactor call and leaves the watcher as the first call left it; so in a
sequence of such calls no call after the first one reaches the reactor, and
when the first call had something to install it made the reactor calls
itself. -/
theorem update_event_idempotent (P : Platform) (hP : P.wf) (iops : lcb_io_opt_st)
    (sock : Int) (evt : libev_event) (flags : Nat) (cb_data handler : Ptr)
    (sock2 : Int) (cb_data2 : Ptr) (rest : List (Int × Ptr)) :
    lcb_io_update_event P iops sock2
        (lcb_io_update_event P iops sock evt flags cb_data handler).2.1 flags cb_data2 handler
      = (0, (lcb_io_update_event P iops sock evt flags cb_data handler).2.1, []) ∧
    update_event_seq P iops flags handler
        (lcb_io_update_event P iops sock evt flags cb_data handler).2.1 rest
      = ((lcb_io_update_event P iops sock evt flags cb_data handler).2.1,
         rest.map (fun _ => ((0 : Int), ([] : List ReactorCall)))) ∧
    ((lcb_io_update_event P iops sock evt flags cb_data handler).2.2 = [] ∨
      ((lcb_io_update_event P iops sock evt flags cb_data handler).2.2.map ReactorCall.op).getLast?
        = some ReactorOp.io_start) := by
  obtain ⟨h1, h2⟩ := update_event_installed P hP iops sock evt flags cb_data handler
  refine ⟨?_, ?_, ?_⟩
  · exact update_event_same P iops sock2 _ flags cb_data2 handler h1.symm h2.symm
  · exact update_event_seq_same P iops flags handler _ h1.symm h2.symm rest
  · by_cases h : native_events P flags = io_events P evt.ev ∧ handler = evt.handler
    · left
      rw [update_event_same P iops sock evt flags cb_data handler h.1 h.2]
    · right
      rw [update_event_changed P hP iops sock evt flags cb_data handler h]
      rfl

/-- An instance of C1: a fresh watcher is registered for the readable mask
on socket 3 (stop, stop, start; the watcher is left active with mask `1`);
the same call made again, and then twice more with other sockets and user
data, returns 0 and makes no reactor call. -/
theorem update_event_idempotent_witness :
    linux_libev4.wf ∧
    lcb_io_update_event linux_libev4 ⟨0, ⟨7, 1⟩⟩ 3 lcb_io_create_event 2 5 9
      = (0,
         { active := 1, pending := 0, priority := 0, cb := .handler_thunk,
           ev := .io 3 1, data := 5, handler := 9 },
         [ReactorCall.ev_io_stop 7 lcb_io_create_event,
          ReactorCall.ev_io_stop 7
            { active := 0, pending := 0, priority := 0, cb := .handler_thunk,
              ev := .io 3 129, data := 5, handler := 9 },
          ReactorCall.ev_io_start 7
            { active := 0, pending := 0, priority := 0, cb := .handler_thunk,
              ev := .io 3 129, data := 5, handler := 9 }]) ∧
    lcb_io_update_event linux_libev4 ⟨0, ⟨7, 1⟩⟩ 3
        (lcb_io_update_event linux_libev4 ⟨0, ⟨7, 1⟩⟩ 3 lcb_io_create_event 2 5 9).2.1 2 5 9
      = (0, (lcb_io_update_event linux_libev4 ⟨0, ⟨7, 1⟩⟩ 3 lcb_io_create_event 2 5 9).2.1,
         []) ∧
    update_event_seq linux_libev4 ⟨0, ⟨7, 1⟩⟩ 2 9
        (lcb_io_update_event linux_libev4 ⟨0, ⟨7, 1⟩⟩ 3 lcb_io_create_event 2 5 9).2.1
        [(4, 6), (3, 5)]
      = ((lcb_io_update_event linux_libev4 ⟨0, ⟨7, 1⟩⟩ 3 lcb_io_create_event 2 5 9).2.1,
         [(0, []), (0, [])]) :=
  ⟨by decide, by decide,
   (update_event_idempotent linux_libev4 (by decide) ⟨0, ⟨7, 1⟩⟩ 3 lcb_io_create_event 2 5 9
      3 5 [(4, 6), (3, 5)]).1,
   (update_event_idempotent linux_libev4 (by decide) ⟨0, ⟨7, 1⟩⟩ 3 lcb_io_create_event 2 5 9
      3 5 [(4, 6), (3, 5)]).2.1⟩

/-- C2 as stated fails: on a freshly allocated watcher, a call asking for the
readable mask (which differs from the installed empty mask) makes three
reactor calls, stop, stop, start, not one stop followed by one start. -/
theorem update_event_two_stops :
    native_events linux_libev4 2 ≠ io_events linux_libev4 lcb_io_create_event.ev ∧
    (lcb_io_update_event linux_libev4 ⟨0, ⟨7, 1⟩⟩ 3 lcb_io_create_event 2 5 9).2.2.map
        ReactorCall.op
      = [ReactorOp.io_stop, ReactorOp.io_stop, ReactorOp.io_start] ∧
    (lcb_io_update_event linux_libev4 ⟨0, ⟨7, 1⟩⟩ 3 lcb_io_create_event 2 5 9).2.2.map
        ReactorCall.op
      ≠ [ReactorOp.io_stop, ReactorOp.io_start] := by
  decide

/-- C2, amended. For header constants as `Platform.wf` describes them: when
the requested mask differs from the installed one, `lcb_io_update_event`
returns 0 and makes exactly three reactor calls, all on the adapter's loop:
`ev_io_stop` on the watcher as it was, then `ev_io_stop` and `ev_io_start`
on the watcher as re-initialised by `ev_init` and bound by `ev_io_set` to
the socket with the requested native mask and the flag `EV__IOFDSET`.
There is exactly one start, it is the last call, and no start precedes a
stop.  The watcher is left active, bound to the socket, with the requested
native mask (the flag cleared by `ev_io_start`), the given user data and
the given callback. -/
theorem update_event_changed_mask_calls (P : Platform) (hP : P.wf) (iops : lcb_io_opt_st)
    (sock : Int) (evt : libev_event) (flags : Nat) (cb_data handler : Ptr)
    (h : native_events P flags ≠ io_events P evt.ev) :
    (lcb_io_update_event P iops sock evt flags cb_data handler).1 = 0 ∧
    (lcb_io_update_event P iops sock evt flags cb_data handler).2.2
      = [ReactorCall.ev_io_stop iops.cookie.loop evt,
         ReactorCall.ev_io_stop iops.cookie.loop
           { active := 0, pending := 0, priority := 0, cb := .handler_thunk,
             ev := .io sock (native_events P flags ||| P.EV__IOFDSET),
             data := cb_data, handler := handler },
         ReactorCall.ev_io_start iops.cookie.loop
           { active := 0, pending := 0, priority := 0, cb := .handler_thunk,
             ev := .io sock (native_events P flags ||| P.EV__IOFDSET),
             data := cb_data, handler := handler }] ∧
    (lcb_io_update_event P iops sock evt flags cb_data handler).2.2.map ReactorCall.op
      = [ReactorOp.io_stop, ReactorOp.io_stop, ReactorOp.io_start] ∧
    (lcb_io_update_event P iops sock evt flags cb_data handler).2.1
      = { active := 1, pending := 0, priority := 0, cb := .handler_thunk,
          ev := .io sock (native_events P flags), data := cb_data, handler := handler } := by
  have hc : ¬ (native_events P flags = io_events P evt.ev ∧ handler = evt.handler) :=
    fun hh => h hh.1
  rw [update_event_changed P hP iops sock evt flags cb_data handler hc]
  exact ⟨rfl, rfl, rfl, rfl⟩

/-- An instance of the amended C2: readable mask on a fresh watcher; the
second stop and the start get the watcher with `events = 129`
(`EV_READ | EV__IOFDSET`), the watcher is left with `events = 1`. -/
theorem update_event_changed_mask_calls_witness :
    linux_libev4.wf ∧
    native_events linux_libev4 2 ≠ io_events linux_libev4 lcb_io_create_event.ev ∧
    (lcb_io_update_event linux_libev4 ⟨0, ⟨7, 1⟩⟩ 3 lcb_io_create_event 2 5 9).2.2
      = [ReactorCall.ev_io_stop 7 lcb_io_create_event,
         ReactorCall.ev_io_stop 7
           { active := 0, pending := 0, priority := 0, cb := .handler_thunk,
             ev := .io 3 129, data := 5, handler := 9 },
         ReactorCall.ev_io_start 7
           { active := 0, pending := 0, priority := 0, cb := .handler_thunk,
             ev := .io 3 129, data := 5, handler := 9 }] ∧
    (lcb_io_update_event linux_libev4 ⟨0, ⟨7, 1⟩⟩ 3 lcb_io_create_event 2 5 9).2.1
      = { active := 1, pending := 0, priority := 0, cb := .handler_thunk,
          ev := .io 3 1, data := 5, handler := 9 } :=
  ⟨by decide, by decide,
   (update_event_changed_mask_calls linux_libev4 (by decide) ⟨0, ⟨7, 1⟩⟩ 3
      lcb_io_create_event 2 5 9 (by decide)).2.1,
   (update_event_changed_mask_calls linux_libev4 (by decide) ⟨0, ⟨7, 1⟩⟩ 3
      lcb_io_create_event 2 5 9 (by decide)).2.2.2⟩

/-- C10. The no-op decision of update-event looks at the mask and the
callback only: when the translated mask and the callback equal the installed
ones, a call with any socket and any user data returns 0, makes no reactor
call and leaves the watcher (bound socket and user data included) as it
was, so the thunk still delivers the old socket and the old user data. -/
theorem update_event_noop_keeps_socket_and_data (P : Platform) (iops : lcb_io_opt_st)
    (sock : Int) (evt : libev_event) (flags : Nat) (cb_data handler : Ptr)
    (he : native_events P flags = io_events P evt.ev) (hh : handler = evt.handler) :
    (lcb_io_update_event P iops sock evt flags cb_data handler).1 = 0 ∧
    (lcb_io_update_event P iops sock evt flags cb_data handler).2.2 = [] ∧
    (lcb_io_update_event P iops sock evt flags cb_data handler).2.1 = evt ∧
    io_fd P (lcb_io_update_event P iops sock evt flags cb_data handler).2.1.ev
      = io_fd P evt.ev ∧
    (lcb_io_update_event P iops sock evt flags cb_data handler).2.1.data = evt.data ∧
    ∀ events : Nat,
      handler_thunk P (lcb_io_update_event P iops sock evt flags cb_data handler).2.1 events
        = handler_thunk P evt events ∧
      (handler_thunk P (lcb_io_update_event P iops sock evt flags cb_data handler).2.1
        events).sock = io_fd P evt.ev ∧
      (handler_thunk P (lcb_io_update_event P iops sock evt flags cb_data handler).2.1
        events).cb_data = evt.data := by
  rw [update_event_same P iops sock evt flags cb_data handler he hh]
  exact ⟨rfl, rfl, rfl, rfl, rfl, fun _ => ⟨rfl, rfl, rfl⟩⟩

/-- An instance of C10: a watcher registered for writable on socket 3 with
user data 5 is updated with the same mask and callback but socket 4 and user
data 6; the thunk still delivers socket 3 and user data 5. -/
theorem update_event_noop_keeps_socket_and_data_witness :
    (lcb_io_update_event linux_libev4 ⟨0, ⟨7, 1⟩⟩ 4
        (lcb_io_update_event linux_libev4 ⟨0, ⟨7, 1⟩⟩ 3 lcb_io_create_event 4 5 9).2.1
        4 6 9).2.2 = [] ∧
    handler_thunk linux_libev4
        (lcb_io_update_event linux_libev4 ⟨0, ⟨7, 1⟩⟩ 4
          (lcb_io_update_event linux_libev4 ⟨0, ⟨7, 1⟩⟩ 3 lcb_io_create_event 4 5 9).2.1
          4 6 9).2.1 2
      = { handler := 9, sock := 3, which := 4, cb_data := 5 } := by
  have h := update_event_noop_keeps_socket_and_data linux_libev4 ⟨0, ⟨7, 1⟩⟩ 4
    (lcb_io_update_event linux_libev4 ⟨0, ⟨7, 1⟩⟩ 3 lcb_io_create_event 4 5 9).2.1
    4 6 9 (by decide) (by decide)
  refine ⟨h.2.1, ?_⟩
  rw [(h.2.2.2.2.2 2).1]
  decide


/-! ## Mask translation -/

/-- The native mask of each of the four generic masks. -/
theorem native_events_subset (P : Platform) (hP : P.wf) :
    native_events P 0 = 0 ∧
    native_events P P.LCB_READ_EVENT = P.EV_READ ∧
    native_events P P.LCB_WRITE_EVENT = P.EV_WRITE ∧
    native_events P (P.LCB_READ_EVENT ||| P.LCB_WRITE_EVENT) = P.EV_READ ||| P.EV_WRITE := by
  obtain ⟨hr, hw, hrw, -, -, her, hew, herw, hn, -, -⟩ := hP
  have hwr : P.LCB_WRITE_EVENT &&& P.LCB_READ_EVENT = 0 := by rw [Nat.and_comm]; exact hrw
  refine ⟨?_, ?_, ?_, ?_⟩
  · simp [native_events, hn]
  · simp [native_events, hn, hr, hrw]
  · simp [native_events, hn, hw, hwr]
  · simp [native_events, hn, hr, hw, or_and_self_left, or_and_self_right]

/-- The generic mask the thunk computes from any native mask: the readable
flag for the native read flag, the writable flag for the native write flag,
nothing else; the socket, user data and handler it passes on are the
watcher's. -/
theorem handler_thunk_eq (P : Platform) (hP : P.wf) (evt : libev_event) (e : Nat) :
    handler_thunk P evt e
      = { handler := evt.handler, sock := io_fd P evt.ev,
          which := (if e &&& P.EV_READ ≠ 0 then P.LCB_READ_EVENT else 0) |||
            (if e &&& P.EV_WRITE ≠ 0 then P.LCB_WRITE_EVENT else 0),
          cb_data := evt.data } := by
  obtain ⟨-, -, -, hr15, hw15, -, -, -, -, -, -⟩ := hP
  have hr16 : P.LCB_READ_EVENT < 2 ^ 16 := lt_trans hr15 (by norm_num)
  have hw16 : P.LCB_WRITE_EVENT < 2 ^ 16 := lt_trans hw15 (by norm_num)
  have hrw16 : P.LCB_READ_EVENT ||| P.LCB_WRITE_EVENT < 2 ^ 16 := Nat.or_lt_two_pow hr16 hw16
  have m0 : (0 : Nat) % 2 ^ 16 = 0 := by norm_num
  have m1 := Nat.mod_eq_of_lt hr16
  have m2 := Nat.mod_eq_of_lt hw16
  have m3 := Nat.mod_eq_of_lt hrw16
  unfold handler_thunk to_short
  by_cases h1 : e &&& P.EV_READ = 0 <;> by_cases h2 : e &&& P.EV_WRITE = 0 <;>
    simp only [h1, h2, ne_eq, not_true_eq_false, not_false_eq_true, if_true, if_false,
      Nat.zero_or, Nat.or_zero, m0, m1, m2, m3]

/-- The thunk looks at the read and write flags of the native mask only. -/
theorem handler_thunk_ignores_other_flags (P : Platform) (evt : libev_event) (e : Nat) :
    handler_thunk P evt (e &&& (P.EV_READ ||| P.EV_WRITE)) = handler_thunk P evt e := by
  simp [handler_thunk, and_or_and_left, and_or_and_right]

/-- On the four generic masks the native mask has the read flag exactly when
the generic mask has the readable flag, the write flag exactly when it has
the writable flag, and nothing else. -/
theorem native_events_flags (P : Platform) (hP : P.wf) (m : Nat)
    (hm : m = 0 ∨ m = P.LCB_READ_EVENT ∨ m = P.LCB_WRITE_EVENT ∨
      m = P.LCB_READ_EVENT ||| P.LCB_WRITE_EVENT) :
    (native_events P m &&& P.EV_READ ≠ 0 ↔ m &&& P.LCB_READ_EVENT ≠ 0) ∧
    (native_events P m &&& P.EV_WRITE ≠ 0 ↔ m &&& P.LCB_WRITE_EVENT ≠ 0) ∧
    native_events P m &&& (P.EV_READ ||| P.EV_WRITE) = native_events P m := by
  obtain ⟨n0, nr, nw, nrw⟩ := native_events_subset P hP
  obtain ⟨hr, hw, hrw, -, -, her, hew, herw, -, -, -⟩ := hP
  have hwr : P.LCB_WRITE_EVENT &&& P.LCB_READ_EVENT = 0 := by rw [Nat.and_comm]; exact hrw
  have hewr : P.EV_WRITE &&& P.EV_READ = 0 := by rw [Nat.and_comm]; exact herw
  have e1 : P.EV_READ &&& (P.EV_READ ||| P.EV_WRITE) = P.EV_READ := by
    rw [Nat.and_comm]; exact or_and_self_left _ _
  have e2 : P.EV_WRITE &&& (P.EV_READ ||| P.EV_WRITE) = P.EV_WRITE := by
    rw [Nat.and_comm]; exact or_and_self_right _ _
  rcases hm with h | h | h | h
  · subst h
    rw [n0]
    simp
  · rw [h, nr]
    simp [her, hr, herw, hrw, e1]
  · rw [h, nw]
    simp [hew, hw, hewr, hwr, e2]
  · rw [h, nrw]
    simp [her, hew, hr, hw, or_and_self_left, or_and_self_right]

/-- The thunk undoes the translation on the four generic masks, on any
watcher. -/
theorem handler_thunk_native_events (P : Platform) (hP : P.wf) (evt : libev_event) (m : Nat)
    (hm : m = 0 ∨ m = P.LCB_READ_EVENT ∨ m = P.LCB_WRITE_EVENT ∨
      m = P.LCB_READ_EVENT ||| P.LCB_WRITE_EVENT) :
    handler_thunk P evt (native_events P m)
      = { handler := evt.handler, sock := io_fd P evt.ev, which := m,
          cb_data := evt.data } := by
  obtain ⟨n0, nr, nw, nrw⟩ := native_events_subset P hP
  rw [handler_thunk_eq P hP]
  obtain ⟨-, -, -, -, -, her, hew, herw, -, -, -⟩ := hP
  have hewr : P.EV_WRITE &&& P.EV_READ = 0 := by rw [Nat.and_comm]; exact herw
  rcases hm with h | h | h | h
  · rw [h, n0]
    simp
  · rw [h, nr]
    simp [her, herw]
  · rw [h, nw]
    simp [hew, hewr]
  · rw [h, nrw]
    simp [her, hew, or_and_self_left, or_and_self_right]

/-- C7. Mask translation round trip, for header constants as `Platform.wf`
describes them and every generic mask `m` that is a subset of
{Readable, Writable}.  After `lcb_io_update_event` the watcher carries the
native mask that has the read flag iff `m` has Readable, the write flag iff
`m` has Writable, and no other flag.  Unless the call is the no-op on an
already installed mask and callback, it ends with `ev_io_start` on the
watcher bound by `ev_io_set` to the given socket with that native mask (and
`EV__IOFDSET`), and leaves the watcher with that socket, that native mask,
the given user data and the given handler.  The thunk fired on that watcher
with the native mask of `m`, and equally with the native mask of any other
subset `m2` of {Readable, Writable}, invokes the installed handler with the
generic mask `m`, respectively `m2`, the bound socket and the installed user
data.  Fired with an arbitrary native mask `e` it delivers Readable exactly
for the read flag of `e` and Writable exactly for the write flag of `e`,
whatever other flags `e` carries. -/
theorem mask_round_trip (P : Platform) (hP : P.wf) (iops : lcb_io_opt_st) (sock : Int)
    (evt : libev_event) (m : Nat) (cb_data handler : Ptr)
    (hm : m = 0 ∨ m = P.LCB_READ_EVENT ∨ m = P.LCB_WRITE_EVENT ∨
      m = P.LCB_READ_EVENT ||| P.LCB_WRITE_EVENT) :
    io_events P (lcb_io_update_event P iops sock evt m cb_data handler).2.1.ev
      = native_events P m ∧
    (native_events P m &&& P.EV_READ ≠ 0 ↔ m &&& P.LCB_READ_EVENT ≠ 0) ∧
    (native_events P m &&& P.EV_WRITE ≠ 0 ↔ m &&& P.LCB_WRITE_EVENT ≠ 0) ∧
    native_events P m &&& (P.EV_READ ||| P.EV_WRITE) = native_events P m ∧
    (((lcb_io_update_event P iops sock evt m cb_data handler).2.2 = [] ∧
        (lcb_io_update_event P iops sock evt m cb_data handler).2.1 = evt) ∨
      ((lcb_io_update_event P iops sock evt m cb_data handler).2.2.getLast?
          = some (ReactorCall.ev_io_start iops.cookie.loop
              { active := 0, pending := 0, priority := 0, cb := .handler_thunk,
                ev := .io sock (native_events P m ||| P.EV__IOFDSET),
                data := cb_data, handler := handler }) ∧
        (lcb_io_update_event P iops sock evt m cb_data handler).2.1
          = { active := 1, pending := 0, priority := 0, cb := .handler_thunk,
              ev := .io sock (native_events P m), data := cb_data, handler := handler })) ∧
    handler_thunk P (lcb_io_update_event P iops sock evt m cb_data handler).2.1
        (native_events P m)
      = { handler := handler,
          sock := io_fd P (lcb_io_update_event P iops sock evt m cb_data handler).2.1.ev,
          which := m,
          cb_data := (lcb_io_update_event P iops sock evt m cb_data handler).2.1.data } ∧
    (∀ m2 : Nat,
      (m2 = 0 ∨ m2 = P.LCB_READ_EVENT ∨ m2 = P.LCB_WRITE_EVENT ∨
        m2 = P.LCB_READ_EVENT ||| P.LCB_WRITE_EVENT) →
      handler_thunk P (lcb_io_update_event P iops sock evt m cb_data handler).2.1
          (native_events P m2)
        = { handler := handler,
            sock := io_fd P (lcb_io_update_event P iops sock evt m cb_data handler).2.1.ev,
            which := m2,
            cb_data := (lcb_io_update_event P iops sock evt m cb_data handler).2.1.data }) ∧
    (∀ e : Nat,
      handler_thunk P (lcb_io_update_event P iops sock evt m cb_data handler).2.1 e
        = { handler := handler,
            sock := io_fd P (lcb_io_update_event P iops sock evt m cb_data handler).2.1.ev,
            which := (if e &&& P.EV_READ ≠ 0 then P.LCB_READ_EVENT else 0) |||
              (if e &&& P.EV_WRITE ≠ 0 then P.LCB_WRITE_EVENT else 0),
            cb_data := (lcb_io_update_event P iops sock evt m cb_data handler).2.1.data } ∧
      handler_thunk P (lcb_io_update_event P iops sock evt m cb_data handler).2.1 e
        = handler_thunk P (lcb_io_update_event P iops sock evt m cb_data handler).2.1
            (e &&& (P.EV_READ ||| P.EV_WRITE))) := by
  obtain ⟨i1, i2⟩ := update_event_installed P hP iops sock evt m cb_data handler
  obtain ⟨f1, f2, f3⟩ := native_events_flags P hP m hm
  refine ⟨i1, f1, f2, f3, ?_, ?_, ?_, ?_⟩
  · by_cases h : native_events P m = io_events P evt.ev ∧ handler = evt.handler
    · left
      rw [update_event_same P iops sock evt m cb_data handler h.1 h.2]
      exact ⟨rfl, rfl⟩
    · right
      rw [update_event_changed P hP iops sock evt m cb_data handler h]
      exact ⟨rfl, rfl⟩
  · rw [handler_thunk_native_events P hP _ m hm, i2]
  · intro m2 hm2
    rw [handler_thunk_native_events P hP _ m2 hm2, i2]
  · intro e
    refine ⟨?_, (handler_thunk_ignores_other_flags P _ e).symm⟩
    rw [handler_thunk_eq P hP, i2]

/-- An instance of C7: a fresh watcher registered for Writable on socket 3
with user data 5 and handler 9; fired on native-writable, the handler gets
mask Writable, socket 3 and user data 5.  Registered for Readable and
Writable and fired on native-writable alone, the handler gets Writable
alone. -/
theorem mask_round_trip_witness :
    linux_libev4.wf ∧
    handler_thunk linux_libev4
        (lcb_io_update_event linux_libev4 ⟨0, ⟨7, 1⟩⟩ 3 lcb_io_create_event 4 5 9).2.1 2
      = { handler := 9, sock := 3, which := 4, cb_data := 5 } ∧
    handler_thunk linux_libev4
        (lcb_io_update_event linux_libev4 ⟨0, ⟨7, 1⟩⟩ 3 lcb_io_create_event 6 5 9).2.1 2
      = { handler := 9, sock := 3, which := 4, cb_data := 5 } := by
  refine ⟨by decide, ?_, ?_⟩
  · have h := (mask_round_trip linux_libev4 (by decide) ⟨0, ⟨7, 1⟩⟩ 3 lcb_io_create_event
      4 5 9 (by decide)).2.2.2.2.2.1
    have hn : native_events linux_libev4 4 = 2 := by decide
    rw [hn] at h
    rw [h]
    decide
  · have h := (mask_round_trip linux_libev4 (by decide) ⟨0, ⟨7, 1⟩⟩ 3 lcb_io_create_event
      6 5 9 (by decide)).2.2.2.2.2.2.1 4 (by decide)
    have hn : native_events linux_libev4 4 = 2 := by decide
    rw [hn] at h
    rw [h]
    decide

/-! ## Loop ownership -/

/-- C3. Loop ownership.  With both allocations succeeding,
`lcb_create_libev_io_opts` called without a loop and with `ev_loop_new`
returning a loop yields an adapter whose cookie holds that new loop with
`allocated = 1`; called with a loop it yields an adapter whose cookie holds
exactly that loop with `allocated = 0` and makes no reactor call.  Whatever
the allocation outcomes, an adapter that is returned is of one of these two
kinds.  `lcb_destroy_io_opts` makes the call `ev_loop_destroy` on the
cookie's loop if and only if `allocated` is non-zero, and makes no other
reactor call.  Hence create followed by destroy never destroys a supplied
loop and destroys an internally created loop exactly once. -/
theorem loop_ownership (ret_ok cookie_ok : Bool) (new_loop loop : Ptr)
    (made a : lcb_io_opt_st) :
    (new_loop ≠ 0 →
      lcb_create_libev_io_opts true true new_loop 0
        = (some { error := 0, cookie := { loop := new_loop, allocated := 1 } },
           [ReactorCall.ev_loop_new])) ∧
    (loop ≠ 0 →
      lcb_create_libev_io_opts true true new_loop loop
        = (some { error := 0, cookie := { loop := loop, allocated := 0 } }, [])) ∧
    ((lcb_create_libev_io_opts ret_ok cookie_ok new_loop loop).1 = some made →
      (loop = 0 →
        made.cookie.allocated = 1 ∧ made.cookie.loop = new_loop ∧ new_loop ≠ 0 ∧
        lcb_destroy_io_opts made = [ReactorCall.ev_loop_destroy new_loop] ∧
        (lcb_destroy_io_opts made).count (ReactorCall.ev_loop_destroy new_loop) = 1) ∧
      (loop ≠ 0 →
        made.cookie.allocated = 0 ∧ made.cookie.loop = loop ∧
        lcb_destroy_io_opts made = [] ∧
        ReactorCall.ev_loop_destroy loop ∉ lcb_destroy_io_opts made)) ∧
    (ReactorCall.ev_loop_destroy a.cookie.loop ∈ lcb_destroy_io_opts a
      ↔ a.cookie.allocated ≠ 0) ∧
    (∀ c ∈ lcb_destroy_io_opts a, c = ReactorCall.ev_loop_destroy a.cookie.loop) ∧
    (lcb_destroy_io_opts a).length ≤ 1 := by
  refine ⟨?_, ?_, ?_, ?_, ?_, ?_⟩
  · intro h
    simp [lcb_create_libev_io_opts, h]
  · intro h
    simp [lcb_create_libev_io_opts, h]
  · intro h
    constructor
    · intro hl
      subst hl
      by_cases hok : ret_ok = false ∨ cookie_ok = false
      · simp [lcb_create_libev_io_opts, hok] at h
      · by_cases hn : new_loop = 0
        · simp [lcb_create_libev_io_opts, hok, hn] at h
        · simp [lcb_create_libev_io_opts, hok, hn] at h
          subst h
          simp [lcb_destroy_io_opts, hn]
    · intro hl
      by_cases hok : ret_ok = false ∨ cookie_ok = false
      · simp [lcb_create_libev_io_opts, hok] at h
      · simp [lcb_create_libev_io_opts, hok, hl] at h
        subst h
        simp [lcb_destroy_io_opts]
  · by_cases ha : a.cookie.allocated = 0
    · simp [lcb_destroy_io_opts, ha]
    · simp [lcb_destroy_io_opts, ha]
  · intro c hc
    by_cases ha : a.cookie.allocated = 0
    · simp [lcb_destroy_io_opts, ha] at hc
    · simpa [lcb_destroy_io_opts, ha] using hc
  · by_cases ha : a.cookie.allocated = 0
    · simp [lcb_destroy_io_opts, ha]
    · simp [lcb_destroy_io_opts, ha]

/-- An instance of C3: an adapter made on the supplied loop 7 is destroyed
without a reactor call; an adapter made without a loop, for which
`ev_loop_new` returned loop 8, is destroyed with one `ev_loop_destroy` of
loop 8. -/
theorem loop_ownership_witness :
    lcb_create_libev_io_opts true true 8 7
      = (some { error := 0, cookie := { loop := 7, allocated := 0 } }, []) ∧
    lcb_destroy_io_opts { error := 0, cookie := { loop := 7, allocated := 0 } } = [] ∧
    lcb_create_libev_io_opts true true 8 0
      = (some { error := 0, cookie := { loop := 8, allocated := 1 } },
         [ReactorCall.ev_loop_new]) ∧
    lcb_destroy_io_opts { error := 0, cookie := { loop := 8, allocated := 1 } }
      = [ReactorCall.ev_loop_destroy 8] :=
  ⟨(loop_ownership true true 8 7 ⟨0, ⟨7, 0⟩⟩ ⟨0, ⟨7, 0⟩⟩).2.1 (by decide),
   ((loop_ownership true true 8 7 ⟨0, ⟨7, 0⟩⟩ ⟨0, ⟨7, 0⟩⟩).2.2.1 (by decide)).2
      (by decide) |>.2.2.1,
   (loop_ownership true true 8 0 ⟨0, ⟨8, 1⟩⟩ ⟨0, ⟨8, 1⟩⟩).1 (by decide),
   ((loop_ownership true true 8 0 ⟨0, ⟨8, 1⟩⟩ ⟨0, ⟨8, 1⟩⟩).2.2.1 (by decide)).1
      (by decide) |>.2.2.2.1⟩

/-! ## Socket shim -/

/-- C4. Error capture of the socket pass-throughs.  Each of `lcb_io_recv`,
`lcb_io_send`, `lcb_io_connect`, `lcb_io_recvv` and `lcb_io_sendv` (the last
two with `niov = 2`) makes its one system call and, whatever the outcome
`(r, e)` of that call, returns `r` unchanged; when `r < 0` the adapter's
`error` afterwards is `e`, when `r >= 0` the adapter is as before the call. -/
theorem error_capture (os : OS) (iops : lcb_io_opt_st) (sock : Int) (buffer : Ptr)
    (len : Nat) (flags : Int) (name : Ptr) (namelen : Nat) (iov : Nat → iovec) :
    ((lcb_io_recv os iops sock buffer len flags).1
        = (os (Syscall.recv sock buffer len flags)).ret ∧
      ((os (Syscall.recv sock buffer len flags)).ret < 0 →
        (lcb_io_recv os iops sock buffer len flags).2.1.error
          = (os (Syscall.recv sock buffer len flags)).errno) ∧
      (0 ≤ (os (Syscall.recv sock buffer len flags)).ret →
        (lcb_io_recv os iops sock buffer len flags).2.1 = iops)) ∧
    ((lcb_io_send os iops sock buffer len flags).1
        = (os (Syscall.send sock buffer len flags)).ret ∧
      ((os (Syscall.send sock buffer len flags)).ret < 0 →
        (lcb_io_send os iops sock buffer len flags).2.1.error
          = (os (Syscall.send sock buffer len flags)).errno) ∧
      (0 ≤ (os (Syscall.send sock buffer len flags)).ret →
        (lcb_io_send os iops sock buffer len flags).2.1 = iops)) ∧
    ((lcb_io_connect os iops sock name namelen).1
        = (os (Syscall.connect sock name namelen)).ret ∧
      ((os (Syscall.connect sock name namelen)).ret < 0 →
        (lcb_io_connect os iops sock name namelen).2.1.error
          = (os (Syscall.connect sock name namelen)).errno) ∧
      (0 ≤ (os (Syscall.connect sock name namelen)).ret →
        (lcb_io_connect os iops sock name namelen).2.1 = iops)) ∧
    (∃ (msg : msghdr) (after : lcb_io_opt_st),
      lcb_io_recvv os iops sock iov 2
        = some ((os (Syscall.recvmsg sock msg 0)).ret, after, [Syscall.recvmsg sock msg 0]) ∧
      ((os (Syscall.recvmsg sock msg 0)).ret < 0 →
        after.error = (os (Syscall.recvmsg sock msg 0)).errno) ∧
      (0 ≤ (os (Syscall.recvmsg sock msg 0)).ret → after = iops)) ∧
    (∃ (msg : msghdr) (after : lcb_io_opt_st),
      lcb_io_sendv os iops sock iov 2
        = some ((os (Syscall.sendmsg sock msg 0)).ret, after, [Syscall.sendmsg sock msg 0]) ∧
      ((os (Syscall.sendmsg sock msg 0)).ret < 0 →
        after.error = (os (Syscall.sendmsg sock msg 0)).errno) ∧
      (0 ≤ (os (Syscall.sendmsg sock msg 0)).ret → after = iops)) := by
  refine ⟨⟨rfl, ?_, ?_⟩, ⟨rfl, ?_, ?_⟩, ⟨rfl, ?_, ?_⟩, ?_, ?_⟩
  · intro h
    simp [lcb_io_recv, h]
  · intro h
    simp [lcb_io_recv, not_lt.mpr h]
  · intro h
    simp [lcb_io_send, h]
  · intro h
    simp [lcb_io_send, not_lt.mpr h]
  · intro h
    simp [lcb_io_connect, h]
  · intro h
    simp [lcb_io_connect, not_lt.mpr h]
  · refine ⟨_, _, rfl, ?_, ?_⟩
    · intro h
      rw [if_pos h]
    · intro h
      rw [if_neg (not_lt.mpr h)]
  · refine ⟨_, _, rfl, ?_, ?_⟩
    · intro h
      rw [if_pos h]
    · intro h
      rw [if_neg (not_lt.mpr h)]

/-- An instance of C4: a `recv` that fails with `-1` and error code 11 on an
adapter whose captured error was 0. -/
theorem error_capture_witness :
    (lcb_io_recv (fun _ => ⟨-1, 11⟩) ⟨0, ⟨7, 1⟩⟩ 3 100 64 0).1 = -1 ∧
    (lcb_io_recv (fun _ => ⟨-1, 11⟩) ⟨0, ⟨7, 1⟩⟩ 3 100 64 0).2.1.error = 11 :=
  ⟨(error_capture (fun _ => ⟨-1, 11⟩) ⟨0, ⟨7, 1⟩⟩ 3 100 64 0 0 0
      (fun _ => ⟨0, 0⟩)).1.1,
   (error_capture (fun _ => ⟨-1, 11⟩) ⟨0, ⟨7, 1⟩⟩ 3 100 64 0 0 0
      (fun _ => ⟨0, 0⟩)).1.2.1 (by decide)⟩

/-- C5. Socket create.  If the `socket` call fails, `lcb_io_socket` returns
the sentinel with that call's error captured and makes no other system
call.  If it succeeds and the non-blocking step fails (`F_GETFL` returns a
negative value, or `F_SETFL` returns `-1`), the function closes the new
socket once, returns the sentinel and leaves the captured error equal to
the error code of the failed `fcntl`, whatever the `close` does to `errno`.
Otherwise it returns the descriptor `socket` produced, the adapter is
unchanged, `F_SETFL` has been called on that descriptor with the flags read
by `F_GETFL` plus `O_NONBLOCK`, and nothing is closed. -/
theorem socket_create (P : Platform) (os : OS) (iops : lcb_io_opt_st)
    (domain type protocol : Int) :
    ((os (Syscall.socket domain type protocol)).ret = P.INVALID_SOCKET →
      lcb_io_socket P os iops domain type protocol
        = (P.INVALID_SOCKET,
           { iops with error := (os (Syscall.socket domain type protocol)).errno },
           [Syscall.socket domain type protocol])) ∧
    ((os (Syscall.socket domain type protocol)).ret ≠ P.INVALID_SOCKET →
      (os (Syscall.fcntl_getfl (os (Syscall.socket domain type protocol)).ret)).ret < 0 →
      lcb_io_socket P os iops domain type protocol
        = (P.INVALID_SOCKET,
           { iops with error :=
              (os (Syscall.fcntl_getfl (os (Syscall.socket domain type protocol)).ret)).errno },
           [Syscall.socket domain type protocol,
            Syscall.fcntl_getfl (os (Syscall.socket domain type protocol)).ret,
            Syscall.close (os (Syscall.socket domain type protocol)).ret])) ∧
    ((os (Syscall.socket domain type protocol)).ret ≠ P.INVALID_SOCKET →
      0 ≤ (os (Syscall.fcntl_getfl (os (Syscall.socket domain type protocol)).ret)).ret →
      (os (Syscall.fcntl_setfl (os (Syscall.socket domain type protocol)).ret
        ((os (Syscall.fcntl_getfl (os (Syscall.socket domain type protocol)).ret)).ret.toNat
          ||| P.O_NONBLOCK))).ret = -1 →
      lcb_io_socket P os iops domain type protocol
        = (P.INVALID_SOCKET,
           { iops with error :=
              (os (Syscall.fcntl_setfl (os (Syscall.socket domain type protocol)).ret
                ((os (Syscall.fcntl_getfl
                  (os (Syscall.socket domain type protocol)).ret)).ret.toNat
                  ||| P.O_NONBLOCK))).errno },
           [Syscall.socket domain type protocol,
            Syscall.fcntl_getfl (os (Syscall.socket domain type protocol)).ret,
            Syscall.fcntl_setfl (os (Syscall.socket domain type protocol)).ret
              ((os (Syscall.fcntl_getfl
                (os (Syscall.socket domain type protocol)).ret)).ret.toNat ||| P.O_NONBLOCK),
            Syscall.close (os (Syscall.socket domain type protocol)).ret])) ∧
    ((os (Syscall.socket domain type protocol)).ret ≠ P.INVALID_SOCKET →
      0 ≤ (os (Syscall.fcntl_getfl (os (Syscall.socket domain type protocol)).ret)).ret →
      (os (Syscall.fcntl_setfl (os (Syscall.socket domain type protocol)).ret
        ((os (Syscall.fcntl_getfl (os (Syscall.socket domain type protocol)).ret)).ret.toNat
          ||| P.O_NONBLOCK))).ret ≠ -1 →
      lcb_io_socket P os iops domain type protocol
        = ((os (Syscall.socket domain type protocol)).ret,
           iops,
           [Syscall.socket domain type protocol,
            Syscall.fcntl_getfl (os (Syscall.socket domain type protocol)).ret,
            Syscall.fcntl_setfl (os (Syscall.socket domain type protocol)).ret
              ((os (Syscall.fcntl_getfl
                (os (Syscall.socket domain type protocol)).ret)).ret.toNat
                ||| P.O_NONBLOCK)])) := by
  refine ⟨?_, ?_, ?_, ?_⟩
  · intro h
    simp [lcb_io_socket, h]
  · intro h hg
    simp [lcb_io_socket, h, make_socket_nonblocking, hg, lcb_io_close, close_socket]
  · intro h hg hs
    simp [lcb_io_socket, h, make_socket_nonblocking, not_lt.mpr hg, hs, lcb_io_close,
      close_socket]
  · intro h hg hs
    simp [lcb_io_socket, h, make_socket_nonblocking, not_lt.mpr hg, hs]

/-- An instance of C5: `F_SETFL` fails; socket 5 is closed once, the
sentinel is returned and the captured error is 9, not the 4 of `close`. -/
theorem socket_create_witness :
    lcb_io_socket linux_libev4 os_setfl_fails ⟨0, ⟨7, 1⟩⟩ 2 1 0
      = (-1, ⟨9, ⟨7, 1⟩⟩,
         [Syscall.socket 2 1 0, Syscall.fcntl_getfl 5, Syscall.fcntl_setfl 5 2050,
          Syscall.close 5]) :=
  (socket_create linux_libev4 os_setfl_fails ⟨0, ⟨7, 1⟩⟩ 2 1 0).2.2.1
    (by decide) (by decide) (by decide)

/-- C6. Scatter operations with two descriptors `b0 = iov 0`, `b1 = iov 1`:
`lcb_io_recvv` and `lcb_io_sendv` make one `recvmsg`, respectively `sendmsg`,
call on a message whose array `msg_iov` holds `b0` then `b1`.  When the
length of `b1` is zero, `msg_iovlen` is 1: the message handed over has
exactly one buffer, with the base and length of `b0`, the same buffers as a
message built from `b0` alone.  When the length of `b1` is not zero,
`msg_iovlen` is 2: the message has exactly two buffers, `b0` then `b1`. -/
theorem scatter_second_descriptor (os : OS) (iops : lcb_io_opt_st) (sock : Int)
    (iov : Nat → iovec) :
    (∃ (msg : msghdr) (ret : Int) (after : lcb_io_opt_st),
      lcb_io_recvv os iops sock iov 2 = some (ret, after, [Syscall.recvmsg sock msg 0]) ∧
      msg.msg_iov = [iov 0, iov 1] ∧
      ((iov 1).iov_len = 0 →
        msg.msg_iovlen = 1 ∧
        msg.buffers = [iov 0] ∧
        msg.buffers = (msghdr.mk [iov 0] 1).buffers) ∧
      ((iov 1).iov_len ≠ 0 →
        msg.msg_iovlen = 2 ∧
        msg.buffers = [iov 0, iov 1])) ∧
    (∃ (msg : msghdr) (ret : Int) (after : lcb_io_opt_st),
      lcb_io_sendv os iops sock iov 2 = some (ret, after, [Syscall.sendmsg sock msg 0]) ∧
      msg.msg_iov = [iov 0, iov 1] ∧
      ((iov 1).iov_len = 0 →
        msg.msg_iovlen = 1 ∧
        msg.buffers = [iov 0] ∧
        msg.buffers = (msghdr.mk [iov 0] 1).buffers) ∧
      ((iov 1).iov_len ≠ 0 →
        msg.msg_iovlen = 2 ∧
        msg.buffers = [iov 0, iov 1])) := by
  constructor
  · refine ⟨_, _, _, rfl, rfl, ?_, ?_⟩
    · intro h
      simp [msghdr.buffers, h]
    · intro h
      simp [msghdr.buffers, h]
  · refine ⟨_, _, _, rfl, rfl, ?_, ?_⟩
    · intro h
      simp [msghdr.buffers, h]
    · intro h
      simp [msghdr.buffers, h]

/-- An instance of C6: two descriptors, the second of length zero; and two
descriptors, the second of length 4. -/
theorem scatter_second_descriptor_witness :
    (∃ (msg : msghdr) (ret : Int) (after : lcb_io_opt_st),
      lcb_io_sendv (fun _ => ⟨8, 0⟩) ⟨0, ⟨7, 1⟩⟩ 3
          (fun i => if i = 0 then ⟨100, 8⟩ else ⟨200, 0⟩) 2
        = some (ret, after, [Syscall.sendmsg 3 msg 0]) ∧
      msg.msg_iovlen = 1 ∧
      msg.buffers = [⟨100, 8⟩]) ∧
    (∃ (msg : msghdr) (ret : Int) (after : lcb_io_opt_st),
      lcb_io_recvv (fun _ => ⟨12, 0⟩) ⟨0, ⟨7, 1⟩⟩ 3
          (fun i => if i = 0 then ⟨100, 8⟩ else ⟨200, 4⟩) 2
        = some (ret, after, [Syscall.recvmsg 3 msg 0]) ∧
      msg.msg_iovlen = 2 ∧
      msg.buffers = [⟨100, 8⟩, ⟨200, 4⟩]) := by
  constructor
  · obtain ⟨msg, ret, after, h1, -, h2, -⟩ :=
      (scatter_second_descriptor (fun _ => ⟨8, 0⟩) ⟨0, ⟨7, 1⟩⟩ 3
        (fun i => if i = 0 then ⟨100, 8⟩ else ⟨200, 0⟩)).2
    exact ⟨msg, ret, after, h1, (h2 (by decide)).1, (h2 (by decide)).2.1⟩
  · obtain ⟨msg, ret, after, h1, -, -, h3⟩ :=
      (scatter_second_descriptor (fun _ => ⟨12, 0⟩) ⟨0, ⟨7, 1⟩⟩ 3
        (fun i => if i = 0 then ⟨100, 8⟩ else ⟨200, 4⟩)).1
    exact ⟨msg, ret, after, h1, (h3 (by decide)).1, (h3 (by decide)).2⟩

/-! ## Timers -/

/-- A first `lcb_io_update_timer` call on a freshly allocated watcher always
installs: the zeroed `events` word is not `EV_TIMER`. -/
theorem update_timer_fresh (iops : lcb_io_opt_st) (usec : Nat) (cb_data handler : Ptr) :
    lcb_io_update_timer linux_libev4 iops lcb_io_create_event usec cb_data handler
      = (0,
         { active := 0, pending := 0, priority := 0, cb := .handler_thunk,
           ev := .timer usec, data := cb_data, handler := handler },
         [ReactorCall.ev_timer_again iops.cookie.loop
           { active := 0, pending := 0, priority := 0, cb := .handler_thunk,
             ev := .timer usec, data := cb_data, handler := handler }]) := by
  have h : io_events linux_libev4 (ev_members.io 0 0) ≠ linux_libev4.EV_TIMER := by decide
  simp [lcb_io_update_timer, h, ev_init, lcb_io_create_event]

/-- The high word of the binary64 representation of a natural number is
never `0x100`. -/
theorem binary64_high_word_ne (n : Nat) : binary64 n / 2 ^ 32 ≠ 256 := by
  unfold binary64
  by_cases h : n = 0
  · simp [h]
  · simp only [h, if_false]
    have h1 : 1023 * 2 ^ 52 ≤
        (1023 + (bit_length 64 n - 1)) * 2 ^ 52
          + (n - 2 ^ (bit_length 64 n - 1)) * 2 ^ (52 - (bit_length 64 n - 1)) :=
      le_trans (Nat.mul_le_mul_right _ (Nat.le_add_right _ _)) (Nat.le_add_right _ _)
    have h2 : 1023 * 2 ^ 20 ≤
        ((1023 + (bit_length 64 n - 1)) * 2 ^ 52
          + (n - 2 ^ (bit_length 64 n - 1)) * 2 ^ (52 - (bit_length 64 n - 1))) / 2 ^ 32 := by
      rw [Nat.le_div_iff_mul_le (by norm_num)]
      calc 1023 * 2 ^ 20 * 2 ^ 32 = 1023 * 2 ^ 52 := by norm_num
        _ ≤ _ := h1
    intro h3
    rw [h3] at h2
    norm_num at h2

/-- On the concrete platform a repeated `lcb_io_update_timer` call with the
installed callback is never the no-op after a call that stored the repeat
value: the `events` word then holds half of a `double`, not `EV_TIMER`. -/
theorem update_timer_again_rearms (iops : lcb_io_opt_st) (usec usec2 : Nat)
    (cb_data cb_data2 handler : Ptr) :
    lcb_io_update_timer linux_libev4 iops
        (lcb_io_update_timer linux_libev4 iops lcb_io_create_event usec cb_data handler).2.1
        usec2 cb_data2 handler
      = (0,
         { active := 0, pending := 0, priority := 0, cb := .handler_thunk,
           ev := .timer usec2, data := cb_data2, handler := handler },
         [ReactorCall.ev_timer_again iops.cookie.loop
           { active := 0, pending := 0, priority := 0, cb := .handler_thunk,
             ev := .timer usec2, data := cb_data2, handler := handler }]) := by
  rw [update_timer_fresh]
  have h : io_events linux_libev4 (ev_members.timer usec) ≠ linux_libev4.EV_TIMER :=
    binary64_high_word_ne usec
  simp [lcb_io_update_timer, h, ev_init]

/-- What `lcb_io_update_timer` does on every input: it returns 0; it is the
no-op exactly when the callback is the installed one and the `events` word
reads `EV_TIMER`; otherwise it installs callback and user data, stores the
interval in `repeat` and makes the one reactor call `ev_timer_again`. -/
theorem update_timer_cases (P : Platform) (iops : lcb_io_opt_st) (evt : libev_event)
    (usec : Nat) (cb_data handler : Ptr) :
    (lcb_io_update_timer P iops evt usec cb_data handler).1 = 0 ∧
    ((evt.handler = handler ∧ io_events P evt.ev = P.EV_TIMER) →
      lcb_io_update_timer P iops evt usec cb_data handler = (0, evt, [])) ∧
    (¬ (evt.handler = handler ∧ io_events P evt.ev = P.EV_TIMER) →
      lcb_io_update_timer P iops evt usec cb_data handler
        = (0,
           { active := 0, pending := 0, priority := 0, cb := .handler_thunk,
             ev := .timer usec, data := cb_data, handler := handler },
           [ReactorCall.ev_timer_again iops.cookie.loop
             { active := 0, pending := 0, priority := 0, cb := .handler_thunk,
               ev := .timer usec, data := cb_data, handler := handler }])) := by
  by_cases h : evt.handler = handler ∧ io_events P evt.ev = P.EV_TIMER
  · simp [lcb_io_update_timer, h]
  · simp [lcb_io_update_timer, h, ev_init]

/-- C8 fails on the code. `lcb_io_update_timer` called with an interval of
1,000,000 microseconds on a fresh watcher stores the number 1,000,000 in
`repeat`, whose unit is the second, and rearms with it: the configured
period is 1,000,000 seconds, not the 1 second that denotes the interval. -/
theorem update_timer_repeat_is_usec :
    lcb_io_update_timer linux_libev4 ⟨0, ⟨7, 1⟩⟩ lcb_io_create_event 1000000 5 9
      = (0,
         { active := 0, pending := 0, priority := 0, cb := .handler_thunk,
           ev := .timer 1000000, data := 5, handler := 9 },
         [ReactorCall.ev_timer_again 7
           { active := 0, pending := 0, priority := 0, cb := .handler_thunk,
             ev := .timer 1000000, data := 5, handler := 9 }]) ∧
    ¬ denotes_usec
        (lcb_io_update_timer linux_libev4 ⟨0, ⟨7, 1⟩⟩ lcb_io_create_event 1000000 5
          9).2.1.ev 1000000 := by
  decide

/-- C9 fails on the code. After a first `lcb_io_update_timer` call on a fresh
watcher (interval 1000, user data 5, callback 9) the `events` word is not
`EV_TIMER`, and the same call made again is not a no-op: it makes the
reactor call `ev_timer_again` once more. -/
theorem update_timer_repeated_call_rearms :
    io_events linux_libev4
        (lcb_io_update_timer linux_libev4 ⟨0, ⟨7, 1⟩⟩ lcb_io_create_event 1000 5 9).2.1.ev
      ≠ linux_libev4.EV_TIMER ∧
    (lcb_io_update_timer linux_libev4 ⟨0, ⟨7, 1⟩⟩
        (lcb_io_update_timer linux_libev4 ⟨0, ⟨7, 1⟩⟩ lcb_io_create_event 1000 5 9).2.1
        1000 5 9).2.2
      = [ReactorCall.ev_timer_again 7
          { active := 0, pending := 0, priority := 0, cb := .handler_thunk,
            ev := .timer 1000, data := 5, handler := 9 }] ∧
    (lcb_io_update_timer linux_libev4 ⟨0, ⟨7, 1⟩⟩
        (lcb_io_update_timer linux_libev4 ⟨0, ⟨7, 1⟩⟩ lcb_io_create_event 1000 5 9).2.1
        1000 5 9).2.2 ≠ [] := by
  decide

end LibevPlugin
